import Mathlib

/-!
Shallow embedding of the profile-collection core of `profiler/profile.go`
(dd-trace-go): the ProfileType registry, the collection strategies, the
dispatcher `runProfile`, the batch aggregator, and the goroutine
debug-2 text-dump to pprof graph builder `goroutineDebug2ToPprof`.

External capture primitives (`pprof.WriteHeapProfile`,
`pprof.StartCPUProfile`, `lookupProfile`, `stackparse.Parse`, the
google/pprof library's `CheckValid`/`Write`, the statsd client and the
metrics reporter) are injected as parameters, mirroring the Go code's
use of package-level function variables that tests replace.
-/

/-- `ProfileType` is a Go `int` (`type ProfileType int`). -/
abbrev ProfileType := Int

/-- `HeapProfile ProfileType = iota` (first constant, value 0). -/
def HeapProfile : ProfileType := 0

/-- `CPUProfile` (value 1). -/
def CPUProfile : ProfileType := 1

/-- `BlockProfile` (value 2). -/
def BlockProfile : ProfileType := 2

/-- `MutexProfile` (value 3). -/
def MutexProfile : ProfileType := 3

/-- `GoroutineProfile` (value 4). -/
def GoroutineProfile : ProfileType := 4

/-- `GoroutineWaitProfile` (value 5). -/
def GoroutineWaitProfile : ProfileType := 5

/-- `MetricsProfile` (value 6). -/
def MetricsProfile : ProfileType := 6

/-- `func (t ProfileType) String() string` — the switch in profile.go. -/
def profileTypeString (t : ProfileType) : String :=
  if t = HeapProfile then "heap"
  else if t = CPUProfile then "cpu"
  else if t = MutexProfile then "mutex"
  else if t = BlockProfile then "block"
  else if t = GoroutineProfile then "goroutine"
  else if t = GoroutineWaitProfile then "goroutinewait"
  else if t = MetricsProfile then "metrics"
  else "unknown"

/-- `func (t ProfileType) Filename() string` — the switch in profile.go. -/
def profileTypeFilename (t : ProfileType) : String :=
  if t = HeapProfile then "heap.pprof"
  else if t = CPUProfile then "cpu.pprof"
  else if t = MutexProfile then "mutex.pprof"
  else if t = BlockProfile then "block.pprof"
  else if t = GoroutineProfile then "goroutines.pprof"
  else if t = GoroutineWaitProfile then "goroutineswait.pprof"
  else if t = MetricsProfile then "metrics.json"
  else "unknown"

/-- `func (t ProfileType) Tag() string`:
`fmt.Sprintf("profile_type:%s", t)`, i.e. "profile_type:" ++ String(). -/
def profileTypeTag (t : ProfileType) : String :=
  "profile_type:" ++ profileTypeString t

/-- Raw captured bytes (contents of a `bytes.Buffer`). -/
abbrev Bytes := List Nat

/-- Go `time.Duration` is an `int64` count of nanoseconds. -/
abbrev Duration := Int

/-- `time.Duration.Nanoseconds()` returns the duration as an `int64`
nanosecond count, which under this embedding is the identity. -/
def durationNanoseconds (d : Duration) : Int := d

/-- `n * time.Minute` (one minute is 60e9 nanoseconds). -/
def minutesDuration (n : Int) : Duration := n * 60000000000

/-- Go's conversion `int64(x)` of a `uint64` value: two's-complement
reinterpretation. A value below 2^63 (9223372036854775808) is unchanged;
a value of 2^63 or more wraps to a negative by subtracting 2^64
(18446744073709551616). The `% 2^64` keeps the function total on `Nat`;
a uint64 value is always below 2^64, where the `%` is the identity. -/
def int64OfUint64 (n : Nat) : Int :=
  if n % 18446744073709551616 < 9223372036854775808 then
    ((n % 18446744073709551616 : Nat) : Int)
  else
    ((n % 18446744073709551616 : Nat) : Int) - 18446744073709551616

/-- `stackparse.Frame`: one call-stack entry of a goroutine dump. -/
structure Frame where
  func : String
  file : String
  line : Int
deriving DecidableEq

/-- `stackparse.Goroutine` (the spec's TaskRecord): one parsed goroutine
with id (a uint64, embedded as the `Nat` holding its value), state, wait
duration, stack (innermost frame first, as emitted by the dump) and the
frames-elided marker. -/
structure Goroutine where
  id : Nat
  state : String
  wait : Duration
  stack : List Frame
  framesElided : Bool
deriving DecidableEq

namespace pprofile

/-- `pprofile.Mapping` (the fields profile.go sets). -/
structure Mapping where
  id : Nat
  hasFunctions : Bool
deriving DecidableEq

/-- `pprofile.ValueType`. -/
structure ValueType where
  ty : String
  unit : String
deriving DecidableEq

/-- `pprofile.Function` (the fields profile.go sets). -/
structure Function where
  id : Nat
  name : String
  filename : String
deriving DecidableEq

/-- `pprofile.Line`: a line referencing a Function. -/
structure Line where
  function : Function
  line : Int
deriving DecidableEq

/-- `pprofile.Location` (the fields profile.go sets); `mapping` embeds the
Mapping the Go pointer refers to. -/
structure Location where
  id : Nat
  mapping : Mapping
  line : List Line
deriving DecidableEq

/-- `pprofile.Sample`; the Go maps `Label`, `NumUnit`, `NumLabel` are
embedded as association lists holding exactly the literal entries
profile.go constructs. -/
structure Sample where
  value : List Int
  label : List (String × List String)
  numUnit : List (String × List String)
  numLabel : List (String × List Int)
  location : List Location
deriving DecidableEq

/-- `pprofile.Profile` (the fields profile.go sets). -/
structure Profile where
  sampleType : List ValueType
  mapping : List Mapping
  function : List Function
  location : List Location
  sample : List Sample
  comments : List String
deriving DecidableEq

end pprofile

/-- The single synthetic mapping `&pprofile.Mapping{ID: 1, HasFunctions: true}`. -/
def theMapping : pprofile.Mapping := { id := 1, hasFunctions := true }

/-- The synthetic frame appended when `g.FramesElided`:
`&stackparse.Frame{Func: "...additional frames elided..."}` (zero values
for `File` and `Line`). -/
def elidedFrame : Frame :=
  { func := "...additional frames elided...", file := "", line := 0 }

/-- The effective stack iterated by the frame loop: `g.Stack`, with the
synthetic elided frame appended at the end when `g.FramesElided`. -/
def effStack (g : Goroutine) : List Frame :=
  if g.framesElided then g.stack ++ [elidedFrame] else g.stack

/-- The `pprofile.Function` literal built for one frame at the current
value of `functionID`. -/
def frameFunction (fid : Nat) (f : Frame) : pprofile.Function :=
  { id := fid, name := f.func, filename := f.file }

/-- The `pprofile.Location` literal built for one frame at the current
value of `locationID`, referencing the function just built and the single
mapping. -/
def frameLocation (lid : Nat) (fn : pprofile.Function) (f : Frame) : pprofile.Location :=
  { id := lid, mapping := theMapping, line := [{ function := fn, line := f.line }] }

/-- The frame loop `for _, call := range g.Stack` of
`goroutineDebug2ToPprof`: threads the `functionID`/`locationID` counters,
appends to the Function and Location tables in construction order, and
builds `sample.Location` by prepending each new location
(`sample.Location = append([]*pprofile.Location{location}, sample.Location...)`)
onto the accumulator `sloc`. Returns (functions, locations, next
functionID, next locationID, sample locations). -/
def processStack : List Frame → Nat → Nat → List pprofile.Location →
    List pprofile.Function × List pprofile.Location × Nat × Nat × List pprofile.Location
  | [], fid, lid, sloc => ([], [], fid, lid, sloc)
  | f :: rest, fid, lid, sloc =>
      let fn := frameFunction fid f
      let loc := frameLocation lid fn f
      let (fns, locs, fid2, lid2, sloc2) := processStack rest (fid + 1) (lid + 1) (loc :: sloc)
      (fn :: fns, loc :: locs, fid2, lid2, sloc2)

/-- The `pprofile.Sample` literal built for one goroutine, with the final
location sequence `slocs` produced by the frame loop. The numeric goid
label is `int64(g.ID)` (profile.go line 278): the uint64 id converted to
a signed 64-bit integer, wrapping for ids of 2^63 or more. -/
def buildSample (g : Goroutine) (slocs : List pprofile.Location) : pprofile.Sample :=
  { value := [durationNanoseconds g.wait]
    label := [("state", [g.state])]
    numUnit := [("goid", ["id"])]
    numLabel := [("goid", [int64OfUint64 g.id])]
    location := slocs }

/-- The goroutine loop `for _, g := range goroutines`: for each goroutine
runs the frame loop over its effective stack (starting the sample location
list empty), builds its sample, and concatenates the Function/Location
tables and the sample list in construction order. -/
def processGoroutines : List Goroutine → Nat → Nat →
    List pprofile.Function × List pprofile.Location × List pprofile.Sample × Nat × Nat
  | [], fid, lid => ([], [], [], fid, lid)
  | g :: rest, fid, lid =>
      let (fns, locs, fid2, lid2, slocs) := processStack (effStack g) fid lid []
      let s := buildSample g slocs
      let (fns2, locs2, samples, fid3, lid3) := processGoroutines rest fid2 lid2
      (fns ++ fns2, locs ++ locs2, s :: samples, fid3, lid3)

/-- The pure graph-construction part of `goroutineDebug2ToPprof`, applied
to the output of `stackparse.Parse` (the goroutine list and the collected
per-goroutine parse error messages): one mapping with ID 1, the
`waitduration`/`nanoseconds` sample type, counters starting at 1, one
sample per goroutine, and one `"error: "`-prefixed comment per parse
error. -/
def goroutineDebug2Graph (goroutines : List Goroutine) (errs : List String) :
    pprofile.Profile :=
  let (fns, locs, samples, _, _) := processGoroutines goroutines 1 1
  { sampleType := [{ ty := "waitduration", unit := "nanoseconds" }]
    mapping := [theMapping]
    function := fns
    location := locs
    sample := samples
    comments := errs.map (fun e => "error: " ++ e) }

/-- `goroutineDebug2ToPprof` after parsing: builds the graph, then runs the
external google/pprof library's `CheckValid` and `Write` (injected as
`cv`, returning an error message on failure, and `write`, returning the
serialized bytes), wrapping either failure with the
`marshalGoroutineDebug2Profile` stage prefix. -/
def goroutineDebug2ToPprof (cv : pprofile.Profile → Option String)
    (write : pprofile.Profile → Except String Bytes)
    (goroutines : List Goroutine) (errs : List String) : Except String Bytes :=
  let p := goroutineDebug2Graph goroutines errs
  match cv p with
  | some e => Except.error ("marshalGoroutineDebug2Profile: " ++ e)
  | none =>
      match write p with
      | Except.error e => Except.error ("marshalGoroutineDebug2Profile: " ++ e)
      | Except.ok bs => Except.ok bs

/-- `profile`: one finished capture artifact (`name`, `data`). -/
structure profile where
  name : String
  data : Bytes
deriving DecidableEq

/-- The relevant part of `config`: the static statsd tags. -/
structure Config where
  tags : List String
deriving DecidableEq

/-- One `statsd.Timing` emission (name and tags; the measured duration is
wall-clock time, outside this embedding). -/
structure MetricEvent where
  name : String
  tags : List String
deriving DecidableEq

/-- The `cfg.statsd.Timing("datadog.profiler.go.collect_time", ..., tags, 1)`
call each strategy makes on success, with
`tags := append(cfg.tags, t.Tag())`. -/
def collectTimeMetric (cfg : Config) (t : ProfileType) : MetricEvent :=
  { name := "datadog.profiler.go.collect_time", tags := cfg.tags ++ [profileTypeTag t] }

/-- A strategy's outcome: the returned `(*profile, error)` pair and the
list of timing metrics it emitted. -/
abbrev StrategyOutcome := Except String profile × List MetricEvent

/-- `heapProfile`: runs the injected `writeHeapProfile` primitive (its
result is `writeHeapResult`: the buffer's bytes on success); on error
returns it unmodified with no metric, on success emits the timing metric
and packages the bytes under `HeapProfile.Filename()`. -/
def heapProfile (writeHeapResult : Except String Bytes) (cfg : Config) : StrategyOutcome :=
  match writeHeapResult with
  | Except.error e => (Except.error e, [])
  | Except.ok data =>
      (Except.ok { name := profileTypeFilename HeapProfile, data := data },
       [collectTimeMetric cfg HeapProfile])

/-- `cpuProfile`: runs the injected `startCPUProfile` primitive, sleeps for
`cfg.cpuDuration` (real time, outside this embedding), stops the capture;
`startCPUResult` carries the bytes accumulated by stop time. -/
def cpuProfile (startCPUResult : Except String Bytes) (cfg : Config) : StrategyOutcome :=
  match startCPUResult with
  | Except.error e => (Except.error e, [])
  | Except.ok data =>
      (Except.ok { name := profileTypeFilename CPUProfile, data := data },
       [collectTimeMetric cfg CPUProfile])

/-- `blockProfile`: `lookupProfile(BlockProfile.String(), &buf, 0)`. -/
def blockProfile (lookup : String → Nat → Except String Bytes) (cfg : Config) :
    StrategyOutcome :=
  match lookup (profileTypeString BlockProfile) 0 with
  | Except.error e => (Except.error e, [])
  | Except.ok data =>
      (Except.ok { name := profileTypeFilename BlockProfile, data := data },
       [collectTimeMetric cfg BlockProfile])

/-- `mutexProfile`: `lookupProfile(MutexProfile.String(), &buf, 0)`. -/
def mutexProfile (lookup : String → Nat → Except String Bytes) (cfg : Config) :
    StrategyOutcome :=
  match lookup (profileTypeString MutexProfile) 0 with
  | Except.error e => (Except.error e, [])
  | Except.ok data =>
      (Except.ok { name := profileTypeFilename MutexProfile, data := data },
       [collectTimeMetric cfg MutexProfile])

/-- `goroutineProfile`: `lookupProfile(GoroutineProfile.String(), &buf, 0)`. -/
def goroutineProfile (lookup : String → Nat → Except String Bytes) (cfg : Config) :
    StrategyOutcome :=
  match lookup (profileTypeString GoroutineProfile) 0 with
  | Except.error e => (Except.error e, [])
  | Except.ok data =>
      (Except.ok { name := profileTypeFilename GoroutineProfile, data := data },
       [collectTimeMetric cfg GoroutineProfile])

/-- `goroutineWaitProfile`: looks up the goroutine table at debug level 2,
then runs `goroutineDebug2ToPprof` on the text (via the injected
`stackparse.Parse` and the injected external `CheckValid`/`Write`); any
error from either step is returned with no metric. -/
def goroutineWaitProfile (lookup : String → Nat → Except String Bytes)
    (parse : Bytes → List Goroutine × List String)
    (cv : pprofile.Profile → Option String)
    (write : pprofile.Profile → Except String Bytes) (cfg : Config) : StrategyOutcome :=
  match lookup (profileTypeString GoroutineProfile) 2 with
  | Except.error e => (Except.error e, [])
  | Except.ok text =>
      let (gs, errs) := parse text
      match goroutineDebug2ToPprof cv write gs errs with
      | Except.error e => (Except.error e, [])
      | Except.ok data =>
          (Except.ok { name := profileTypeFilename GoroutineWaitProfile, data := data },
           [collectTimeMetric cfg GoroutineWaitProfile])

/-- `collectMetrics`: runs the injected `p.met.report` collaborator. -/
def collectMetrics (reportResult : Except String Bytes) (cfg : Config) : StrategyOutcome :=
  match reportResult with
  | Except.error e => (Except.error e, [])
  | Except.ok data =>
      (Except.ok { name := profileTypeFilename MetricsProfile, data := data },
       [collectTimeMetric cfg MetricsProfile])

/-- The profiler's injected collaborators: the configuration plus the
outcome of each external capture primitive for the current cycle. -/
structure ProfilerModel where
  cfg : Config
  writeHeapResult : Except String Bytes
  startCPUResult : Except String Bytes
  lookup : String → Nat → Except String Bytes
  parse : Bytes → List Goroutine × List String
  checkValid : pprofile.Profile → Option String
  writeProfile : pprofile.Profile → Except String Bytes
  reportResult : Except String Bytes

/-- `(p *profiler) runProfile(t ProfileType)`: the dispatcher switch; an
unsupported value hits the default case
`return nil, errors.New("profile type not implemented")`. -/
def runProfile (pm : ProfilerModel) (t : ProfileType) : StrategyOutcome :=
  if t = HeapProfile then heapProfile pm.writeHeapResult pm.cfg
  else if t = CPUProfile then cpuProfile pm.startCPUResult pm.cfg
  else if t = MutexProfile then mutexProfile pm.lookup pm.cfg
  else if t = BlockProfile then blockProfile pm.lookup pm.cfg
  else if t = GoroutineProfile then goroutineProfile pm.lookup pm.cfg
  else if t = GoroutineWaitProfile then
    goroutineWaitProfile pm.lookup pm.parse pm.checkValid pm.writeProfile pm.cfg
  else if t = MetricsProfile then collectMetrics pm.reportResult pm.cfg
  else (Except.error "profile type not implemented", [])

/-- `batch`: start/end timestamps (Go zero `time.Time` embedded as `none`),
host, and the appended profiles. -/
structure batch where
  start : Int
  endTime : Option Int
  host : String
  profiles : List profile
deriving DecidableEq

/-- `func (b *batch) addProfile(p *profile)`:
`b.profiles = append(b.profiles, p)`. -/
def batch.addProfile (b : batch) (p : profile) : batch :=
  { b with profiles := b.profiles ++ [p] }

/-- Modelled from the spec: `newBatch(start, host) -> Batch` (§4.6) — the
batch constructor is not part of the excerpted source; per the spec a
batch is created empty at cycle start with its end timestamp unset. -/
def newBatch (start : Int) (host : String) : batch :=
  { start := start, endTime := none, host := host, profiles := [] }

/-- Modelled from the spec: `closeBatch(batch, end) -> Batch` (§4.6) — not
part of the excerpted source; per the spec it sets the end timestamp. -/
def closeBatch (b : batch) (e : Int) : batch :=
  { b with endTime := some e }

/-- A sequence of N `addProfile` calls in order. -/
def addProfiles (b : batch) (ps : List profile) : batch :=
  ps.foldl batch.addProfile b

/-! ### Closed forms of the builder loops -/

/-- Closed form of the Function-table entries the frame loop appends for a
frame list, starting at `functionID = fid`. -/
def specFunctions : Nat → List Frame → List pprofile.Function
  | _, [] => []
  | fid, f :: rest => frameFunction fid f :: specFunctions (fid + 1) rest

/-- Closed form of the Location-table entries the frame loop appends,
starting at `functionID = fid`, `locationID = lid`. -/
def specLocations : Nat → Nat → List Frame → List pprofile.Location
  | _, _, [] => []
  | fid, lid, f :: rest =>
      frameLocation lid (frameFunction fid f) f :: specLocations (fid + 1) (lid + 1) rest

/-- All frames the goroutine loop processes, in construction order. -/
def allFrames : List Goroutine → List Frame
  | [] => []
  | g :: rest => effStack g ++ allFrames rest

/-- Closed form of the sample list the goroutine loop builds. -/
def specSamples : List Goroutine → Nat → Nat → List pprofile.Sample
  | [], _, _ => []
  | g :: rest, fid, lid =>
      buildSample g ((specLocations fid lid (effStack g)).reverse) ::
        specSamples rest (fid + (effStack g).length) (lid + (effStack g).length)

/-- The observable content of a Location: for each of its lines, the
referenced function's name and filename and the line number. -/
def locView (l : pprofile.Location) : List (String × String × Int) :=
  l.line.map (fun ln => (ln.function.name, ln.function.filename, ln.line))

/-- The corresponding view of a source Frame. -/
def frameView (f : Frame) : List (String × String × Int) :=
  [(f.func, f.file, f.line)]

theorem processStack_eq (fs : List Frame) : ∀ (fid lid : Nat) (sloc : List pprofile.Location),
    processStack fs fid lid sloc =
      (specFunctions fid fs, specLocations fid lid fs, fid + fs.length, lid + fs.length,
        (specLocations fid lid fs).reverse ++ sloc) := by
  induction fs with
  | nil => intro fid lid sloc; simp [processStack, specFunctions, specLocations]
  | cons f rest ih =>
      intro fid lid sloc
      simp only [processStack, specFunctions, specLocations, ih, List.length_cons,
        List.reverse_cons, List.append_assoc, List.singleton_append, Prod.mk.injEq]
      and_intros <;> first | trivial | omega

theorem specFunctions_append (a b : List Frame) : ∀ fid : Nat,
    specFunctions fid (a ++ b) = specFunctions fid a ++ specFunctions (fid + a.length) b := by
  induction a with
  | nil => intro fid; simp [specFunctions]
  | cons f rest ih =>
      intro fid
      have harith : fid + (rest.length + 1) = fid + 1 + rest.length := by omega
      simp [specFunctions, ih, harith]

theorem specLocations_append (a b : List Frame) : ∀ fid lid : Nat,
    specLocations fid lid (a ++ b) =
      specLocations fid lid a ++ specLocations (fid + a.length) (lid + a.length) b := by
  induction a with
  | nil => intro fid lid; simp [specLocations]
  | cons f rest ih =>
      intro fid lid
      have h1 : fid + (rest.length + 1) = fid + 1 + rest.length := by omega
      have h2 : lid + (rest.length + 1) = lid + 1 + rest.length := by omega
      simp [specLocations, ih, h1, h2]

theorem processGoroutines_eq (gs : List Goroutine) : ∀ fid lid : Nat,
    processGoroutines gs fid lid =
      (specFunctions fid (allFrames gs), specLocations fid lid (allFrames gs),
        specSamples gs fid lid, fid + (allFrames gs).length, lid + (allFrames gs).length) := by
  induction gs with
  | nil => intro fid lid; simp [processGoroutines, allFrames, specFunctions, specLocations,
      specSamples]
  | cons g rest ih =>
      intro fid lid
      simp only [processGoroutines, processStack_eq, ih, allFrames, specSamples,
        specFunctions_append, specLocations_append, List.length_append, List.append_nil,
        Prod.mk.injEq]
      and_intros <;> first | trivial | omega

theorem graph_function_eq (gs : List Goroutine) (errs : List String) :
    (goroutineDebug2Graph gs errs).function = specFunctions 1 (allFrames gs) := by
  simp [goroutineDebug2Graph, processGoroutines_eq]

theorem graph_location_eq (gs : List Goroutine) (errs : List String) :
    (goroutineDebug2Graph gs errs).location = specLocations 1 1 (allFrames gs) := by
  simp [goroutineDebug2Graph, processGoroutines_eq]

theorem graph_sample_eq (gs : List Goroutine) (errs : List String) :
    (goroutineDebug2Graph gs errs).sample = specSamples gs 1 1 := by
  simp [goroutineDebug2Graph, processGoroutines_eq]

theorem graph_comments_eq (gs : List Goroutine) (errs : List String) :
    (goroutineDebug2Graph gs errs).comments = errs.map (fun e => "error: " ++ e) := by
  simp [goroutineDebug2Graph, processGoroutines_eq]

theorem specFunctions_length (fs : List Frame) : ∀ fid : Nat,
    (specFunctions fid fs).length = fs.length := by
  induction fs with
  | nil => intro fid; simp [specFunctions]
  | cons f rest ih => intro fid; simp [specFunctions, ih]

theorem specLocations_length (fs : List Frame) : ∀ fid lid : Nat,
    (specLocations fid lid fs).length = fs.length := by
  induction fs with
  | nil => intro fid lid; simp [specLocations]
  | cons f rest ih => intro fid lid; simp [specLocations, ih]

theorem specSamples_length (gs : List Goroutine) : ∀ fid lid : Nat,
    (specSamples gs fid lid).length = gs.length := by
  induction gs with
  | nil => intro fid lid; simp [specSamples]
  | cons g rest ih => intro fid lid; simp [specSamples, ih]

theorem specLocations_map_locView (fs : List Frame) : ∀ fid lid : Nat,
    (specLocations fid lid fs).map locView = fs.map frameView := by
  induction fs with
  | nil => intro fid lid; simp [specLocations]
  | cons f rest ih =>
      intro fid lid
      simp [specLocations, ih, locView, frameLocation, frameFunction, frameView]

theorem specFunctions_map_id (fs : List Frame) : ∀ fid : Nat,
    (specFunctions fid fs).map (fun fn => fn.id) = List.range' fid fs.length := by
  induction fs with
  | nil => intro fid; simp [specFunctions]
  | cons f rest ih =>
      intro fid
      simp [specFunctions, ih, frameFunction, List.range'_succ]

theorem specLocations_map_id (fs : List Frame) : ∀ fid lid : Nat,
    (specLocations fid lid fs).map (fun l => l.id) = List.range' lid fs.length := by
  induction fs with
  | nil => intro fid lid; simp [specLocations]
  | cons f rest ih =>
      intro fid lid
      simp [specLocations, ih, frameLocation, List.range'_succ]

theorem specFunctions_getElem (fs : List Frame) : ∀ (fid i : Nat),
    (specFunctions fid fs)[i]? = (fs[i]?).map (fun f => frameFunction (fid + i) f) := by
  induction fs with
  | nil => intro fid i; simp [specFunctions]
  | cons f rest ih =>
      intro fid i
      cases i with
      | zero => simp [specFunctions]
      | succ j =>
          have harith : fid + (j + 1) = fid + 1 + j := by omega
          simp [specFunctions, ih, harith]

theorem specLocations_getElem (fs : List Frame) : ∀ (fid lid i : Nat),
    (specLocations fid lid fs)[i]? =
      (fs[i]?).map (fun f => frameLocation (lid + i) (frameFunction (fid + i) f) f) := by
  induction fs with
  | nil => intro fid lid i; simp [specLocations]
  | cons f rest ih =>
      intro fid lid i
      cases i with
      | zero => simp [specLocations]
      | succ j =>
          have h1 : fid + (j + 1) = fid + 1 + j := by omega
          have h2 : lid + (j + 1) = lid + 1 + j := by omega
          simp [specLocations, ih, h1, h2]

theorem specSamples_map_locView (gs : List Goroutine) : ∀ fid lid : Nat,
    (specSamples gs fid lid).map (fun s => s.location.map locView) =
      gs.map (fun g => ((effStack g).map frameView).reverse) := by
  induction gs with
  | nil => intro fid lid; simp [specSamples]
  | cons g rest ih =>
      intro fid lid
      simp [specSamples, ih, buildSample, List.map_reverse, specLocations_map_locView]

theorem specSamples_map_value (gs : List Goroutine) : ∀ fid lid : Nat,
    (specSamples gs fid lid).map (fun s => s.value) =
      gs.map (fun g => [durationNanoseconds g.wait]) := by
  induction gs with
  | nil => intro fid lid; simp [specSamples]
  | cons g rest ih => intro fid lid; simp [specSamples, ih, buildSample]

theorem specSamples_map_label (gs : List Goroutine) : ∀ fid lid : Nat,
    (specSamples gs fid lid).map (fun s => s.label) =
      gs.map (fun g => [("state", [g.state])]) := by
  induction gs with
  | nil => intro fid lid; simp [specSamples]
  | cons g rest ih => intro fid lid; simp [specSamples, ih, buildSample]

theorem specSamples_map_numLabel (gs : List Goroutine) : ∀ fid lid : Nat,
    (specSamples gs fid lid).map (fun s => s.numLabel) =
      gs.map (fun g => [("goid", [int64OfUint64 g.id])]) := by
  induction gs with
  | nil => intro fid lid; simp [specSamples]
  | cons g rest ih => intro fid lid; simp [specSamples, ih, buildSample]

theorem getElem_append_cons_length {α : Type} (l1 : List α) (a : α) (l2 : List α) :
    (l1 ++ a :: l2)[l1.length]? = some a := by
  induction l1 with
  | nil => simp
  | cons x xs ih => simpa using ih

theorem addProfiles_profiles (ps : List profile) : ∀ b : batch,
    (addProfiles b ps).profiles = b.profiles ++ ps := by
  induction ps with
  | nil => intro b; simp [addProfiles]
  | cons p rest ih =>
      intro b
      have step : addProfiles b (p :: rest) = addProfiles (batch.addProfile b p) rest := rfl
      simp [step, ih, batch.addProfile]

theorem addProfiles_start (ps : List profile) : ∀ b : batch,
    (addProfiles b ps).start = b.start := by
  induction ps with
  | nil => intro b; simp [addProfiles]
  | cons p rest ih =>
      intro b
      have step : addProfiles b (p :: rest) = addProfiles (batch.addProfile b p) rest := rfl
      simp [step, ih, batch.addProfile]

theorem addProfiles_endTime (ps : List profile) : ∀ b : batch,
    (addProfiles b ps).endTime = b.endTime := by
  induction ps with
  | nil => intro b; simp [addProfiles]
  | cons p rest ih =>
      intro b
      have step : addProfiles b (p :: rest) = addProfiles (batch.addProfile b p) rest := rfl
      simp [step, ih, batch.addProfile]

theorem addProfiles_host (ps : List profile) : ∀ b : batch,
    (addProfiles b ps).host = b.host := by
  induction ps with
  | nil => intro b; simp [addProfiles]
  | cons p rest ih =>
      intro b
      have step : addProfiles b (p :: rest) = addProfiles (batch.addProfile b p) rest := rfl
      simp [step, ih, batch.addProfile]

/-! ### Concrete records used as test vectors -/

/-- A frame used in concrete scenarios. -/
def fr1 : Frame := { func := "f1", file := "a.go", line := 1 }

/-- A second frame used in concrete scenarios. -/
def fr2 : Frame := { func := "f2", file := "b.go", line := 2 }

/-- A TaskRecord with a 2-frame stack and `framesElided = true`. -/
def gElided : Goroutine :=
  { id := 1, state := "running", wait := 0, stack := [fr1, fr2], framesElided := true }

/-- First of two TaskRecords with identical stacks. -/
def gTwin1 : Goroutine :=
  { id := 1, state := "s", wait := 0, stack := [fr1, fr2], framesElided := false }

/-- Second of two TaskRecords with identical stacks. -/
def gTwin2 : Goroutine :=
  { id := 2, state := "s", wait := 0, stack := [fr1, fr2], framesElided := false }

/-- The spec's end-to-end record: goroutine 7, "chan receive", 5 minutes,
one frame `main.worker` at `/a/b.go:10`. -/
def gWorker : Goroutine :=
  { id := 7, state := "chan receive", wait := minutesDuration 5,
    stack := [{ func := "main.worker", file := "/a/b.go", line := 10 }],
    framesElided := false }

/-- A record with zero wait duration. -/
def gZeroWait : Goroutine :=
  { id := 3, state := "idle", wait := 0, stack := [fr1], framesElided := false }

/-- A record with an empty stack and `framesElided = false`. -/
def gEmptyStack : Goroutine :=
  { id := 4, state := "idle", wait := 5, stack := [], framesElided := false }

/-- A fully concrete profiler collaborator model for witnesses. -/
def pmEx : ProfilerModel :=
  { cfg := { tags := [] }
    writeHeapResult := Except.ok []
    startCPUResult := Except.ok []
    lookup := fun _ _ => Except.ok []
    parse := fun _ => ([], [])
    checkValid := fun _ => none
    writeProfile := fun _ => Except.ok []
    reportResult := Except.ok [] }

/-- Whether a strategy's `(*profile, error)` result is a success. -/
def resultOk {ε α : Type} : Except ε α → Bool
  | Except.ok _ => true
  | Except.error _ => false

/-! ### Claims -/

/-- C5: for all seven ProfileType values the name, filename, and tag
projections return exactly the fixed literal strings, and for every
out-of-range ProfileType value the name and filename projections return
"unknown" and the tag projection returns "profile_type:unknown". -/
theorem c5_profile_type_registry (t : Int) (h : t < 0 ∨ 6 < t) :
    profileTypeString t = "unknown" ∧
    profileTypeFilename t = "unknown" ∧
    profileTypeTag t = "profile_type:unknown" ∧
    profileTypeString HeapProfile = "heap" ∧
    profileTypeString CPUProfile = "cpu" ∧
    profileTypeString MutexProfile = "mutex" ∧
    profileTypeString BlockProfile = "block" ∧
    profileTypeString GoroutineProfile = "goroutine" ∧
    profileTypeString GoroutineWaitProfile = "goroutinewait" ∧
    profileTypeString MetricsProfile = "metrics" ∧
    profileTypeFilename HeapProfile = "heap.pprof" ∧
    profileTypeFilename CPUProfile = "cpu.pprof" ∧
    profileTypeFilename MutexProfile = "mutex.pprof" ∧
    profileTypeFilename BlockProfile = "block.pprof" ∧
    profileTypeFilename GoroutineProfile = "goroutines.pprof" ∧
    profileTypeFilename GoroutineWaitProfile = "goroutineswait.pprof" ∧
    profileTypeFilename MetricsProfile = "metrics.json" ∧
    profileTypeTag HeapProfile = "profile_type:heap" ∧
    profileTypeTag CPUProfile = "profile_type:cpu" ∧
    profileTypeTag MutexProfile = "profile_type:mutex" ∧
    profileTypeTag BlockProfile = "profile_type:block" ∧
    profileTypeTag GoroutineProfile = "profile_type:goroutine" ∧
    profileTypeTag GoroutineWaitProfile = "profile_type:goroutinewait" ∧
    profileTypeTag MetricsProfile = "profile_type:metrics" := by
  have h0 : ¬ (t = HeapProfile) := by simp only [HeapProfile]; omega
  have h1 : ¬ (t = CPUProfile) := by simp only [CPUProfile]; omega
  have h2 : ¬ (t = BlockProfile) := by simp only [BlockProfile]; omega
  have h3 : ¬ (t = MutexProfile) := by simp only [MutexProfile]; omega
  have h4 : ¬ (t = GoroutineProfile) := by simp only [GoroutineProfile]; omega
  have h5 : ¬ (t = GoroutineWaitProfile) := by simp only [GoroutineWaitProfile]; omega
  have h6 : ¬ (t = MetricsProfile) := by simp only [MetricsProfile]; omega
  refine ⟨?_, ?_, ?_, rfl, rfl, rfl, rfl, rfl, rfl, rfl, rfl, rfl, rfl, rfl, rfl, rfl, rfl,
    rfl, rfl, rfl, rfl, rfl, rfl, rfl⟩
  · simp [profileTypeString, h0, h1, h2, h3, h4, h5, h6]
  · simp [profileTypeFilename, h0, h1, h2, h3, h4, h5, h6]
  · simp [profileTypeTag, profileTypeString, h0, h1, h2, h3, h4, h5, h6]

/-- Witness for C5 at the concrete out-of-range value 7. -/
theorem c5_profile_type_registry_witness :
    profileTypeString 7 = "unknown" ∧ profileTypeFilename 7 = "unknown" ∧
    profileTypeTag 7 = "profile_type:unknown" := by
  have h := c5_profile_type_registry 7 (Or.inr (by norm_num))
  exact ⟨h.1, h.2.1, h.2.2.1⟩

/-- C6: dispatching an out-of-range ProfileType returns the
"profile type not implemented" error with no metric emitted and no
strategy invoked, and each supported value returns exactly what the
matching strategy returns, unmodified. -/
theorem c6_dispatcher_contract (pm : ProfilerModel) (t : Int) (h : t < 0 ∨ 6 < t) :
    runProfile pm t = (Except.error "profile type not implemented", []) ∧
    runProfile pm HeapProfile = heapProfile pm.writeHeapResult pm.cfg ∧
    runProfile pm CPUProfile = cpuProfile pm.startCPUResult pm.cfg ∧
    runProfile pm MutexProfile = mutexProfile pm.lookup pm.cfg ∧
    runProfile pm BlockProfile = blockProfile pm.lookup pm.cfg ∧
    runProfile pm GoroutineProfile = goroutineProfile pm.lookup pm.cfg ∧
    runProfile pm GoroutineWaitProfile =
      goroutineWaitProfile pm.lookup pm.parse pm.checkValid pm.writeProfile pm.cfg ∧
    runProfile pm MetricsProfile = collectMetrics pm.reportResult pm.cfg := by
  have h0 : ¬ (t = HeapProfile) := by simp only [HeapProfile]; omega
  have h1 : ¬ (t = CPUProfile) := by simp only [CPUProfile]; omega
  have h2 : ¬ (t = BlockProfile) := by simp only [BlockProfile]; omega
  have h3 : ¬ (t = MutexProfile) := by simp only [MutexProfile]; omega
  have h4 : ¬ (t = GoroutineProfile) := by simp only [GoroutineProfile]; omega
  have h5 : ¬ (t = GoroutineWaitProfile) := by simp only [GoroutineWaitProfile]; omega
  have h6 : ¬ (t = MetricsProfile) := by simp only [MetricsProfile]; omega
  refine ⟨?_, rfl, rfl, rfl, rfl, rfl, rfl, rfl⟩
  simp [runProfile, h0, h1, h2, h3, h4, h5, h6]

/-- Witness for C6 at the concrete out-of-range value 7 and the concrete
collaborator model `pmEx`. -/
theorem c6_dispatcher_contract_witness :
    runProfile pmEx 7 = (Except.error "profile type not implemented", []) ∧
    runProfile pmEx HeapProfile = heapProfile pmEx.writeHeapResult pmEx.cfg := by
  have h := c6_dispatcher_contract pmEx 7 (Or.inr (by norm_num))
  exact ⟨h.1, h.2.1⟩

/-- C7: every strategy surfaces its capture primitive's error unmodified
with no timing metric, and emits the timing metric exactly when it
succeeds. -/
theorem c7_strategy_error_metric (e : String) (cfg : Config)
    (lookupErr : String → Nat → Except String Bytes)
    (parse : Bytes → List Goroutine × List String)
    (cv : pprofile.Profile → Option String)
    (write : pprofile.Profile → Except String Bytes)
    (whr scr rr : Except String Bytes)
    (lk : String → Nat → Except String Bytes)
    (hl : ∀ s d, lookupErr s d = Except.error e) :
    heapProfile (Except.error e) cfg = (Except.error e, []) ∧
    cpuProfile (Except.error e) cfg = (Except.error e, []) ∧
    blockProfile lookupErr cfg = (Except.error e, []) ∧
    mutexProfile lookupErr cfg = (Except.error e, []) ∧
    goroutineProfile lookupErr cfg = (Except.error e, []) ∧
    goroutineWaitProfile lookupErr parse cv write cfg = (Except.error e, []) ∧
    collectMetrics (Except.error e) cfg = (Except.error e, []) ∧
    ((heapProfile whr cfg).2 ≠ [] ↔ resultOk (heapProfile whr cfg).1 = true) ∧
    ((cpuProfile scr cfg).2 ≠ [] ↔ resultOk (cpuProfile scr cfg).1 = true) ∧
    ((blockProfile lk cfg).2 ≠ [] ↔ resultOk (blockProfile lk cfg).1 = true) ∧
    ((mutexProfile lk cfg).2 ≠ [] ↔ resultOk (mutexProfile lk cfg).1 = true) ∧
    ((goroutineProfile lk cfg).2 ≠ [] ↔ resultOk (goroutineProfile lk cfg).1 = true) ∧
    ((goroutineWaitProfile lk parse cv write cfg).2 ≠ [] ↔
      resultOk (goroutineWaitProfile lk parse cv write cfg).1 = true) ∧
    ((collectMetrics rr cfg).2 ≠ [] ↔ resultOk (collectMetrics rr cfg).1 = true) := by
  refine ⟨rfl, rfl, ?_, ?_, ?_, ?_, rfl, ?_, ?_, ?_, ?_, ?_, ?_, ?_⟩
  · simp [blockProfile, hl]
  · simp [mutexProfile, hl]
  · simp [goroutineProfile, hl]
  · simp [goroutineWaitProfile, hl]
  · rcases whr with e1 | d1 <;> simp [heapProfile, resultOk]
  · rcases scr with e1 | d1 <;> simp [cpuProfile, resultOk]
  · rcases h1 : lk (profileTypeString BlockProfile) 0 with e1 | d1 <;>
      simp [blockProfile, h1, resultOk]
  · rcases h1 : lk (profileTypeString MutexProfile) 0 with e1 | d1 <;>
      simp [mutexProfile, h1, resultOk]
  · rcases h1 : lk (profileTypeString GoroutineProfile) 0 with e1 | d1 <;>
      simp [goroutineProfile, h1, resultOk]
  · rcases h1 : lk (profileTypeString GoroutineProfile) 2 with e1 | t1
    · simp [goroutineWaitProfile, h1, resultOk]
    · rcases h2 : parse t1 with ⟨gs, errs⟩
      rcases h3 : goroutineDebug2ToPprof cv write gs errs with e2 | d2 <;>
        simp [goroutineWaitProfile, h1, h2, h3, resultOk]
  · rcases rr with e1 | d1 <;> simp [collectMetrics, resultOk]

/-- Witness for C7 with fully concrete primitives: an erroring lookup and
heap primitive propagate the error "boom" with no metric, and a successful
heap strategy emits its metric. -/
theorem c7_strategy_error_metric_witness :
    heapProfile (Except.error "boom") { tags := [] } = (Except.error "boom", []) ∧
    blockProfile (fun _ _ => Except.error "boom") { tags := [] } = (Except.error "boom", []) ∧
    ((heapProfile (Except.ok []) { tags := [] }).2 ≠ [] ↔
      resultOk (heapProfile (Except.ok []) { tags := [] }).1 = true) := by
  have h := c7_strategy_error_metric "boom" { tags := [] }
    (fun _ _ => Except.error "boom") (fun _ => ([], [])) (fun _ => none)
    (fun _ => Except.ok []) (Except.ok []) (Except.ok []) (Except.ok [])
    (fun _ _ => Except.ok []) (fun _ _ => rfl)
  exact ⟨h.1, h.2.2.1, h.2.2.2.2.2.2.2.1⟩

/-- C8: after a sequence of N addProfile calls the batch's profiles
sequence has length N and holds the added profiles in call order with the
previously appended profiles unchanged, and the end timestamp stays unset
until closeBatch. -/
theorem c8_batch_aggregator (start : Int) (host : String) (ps : List profile)
    (b : batch) (e : Int) :
    (addProfiles (newBatch start host) ps).profiles = ps ∧
    (addProfiles (newBatch start host) ps).profiles.length = ps.length ∧
    (addProfiles (newBatch start host) ps).endTime = none ∧
    (addProfiles b ps).profiles = b.profiles ++ ps ∧
    (addProfiles b ps).endTime = b.endTime ∧
    (addProfiles b ps).start = b.start ∧
    (addProfiles b ps).host = b.host ∧
    (closeBatch b e).endTime = some e := by
  refine ⟨?_, ?_, ?_, addProfiles_profiles ps b, addProfiles_endTime ps b,
    addProfiles_start ps b, addProfiles_host ps b, rfl⟩
  · simp [addProfiles_profiles, newBatch]
  · simp [addProfiles_profiles, newBatch]
  · simp [addProfiles_endTime, newBatch]

/-- C2: the builder never deduplicates: Function and Location identifiers
are exactly 1, 2, ..., n in construction order (hence strictly increasing,
globally unique, starting at 1), and two TaskRecords with identical
stacks [f1, f2] yield 4 distinct Function entries and 4 distinct Location
entries. -/
theorem c2_no_dedup_fresh_ids (gs : List Goroutine) (errs : List String) :
    (goroutineDebug2Graph gs errs).function.map (fun fn => fn.id) =
      List.range' 1 (goroutineDebug2Graph gs errs).function.length ∧
    (goroutineDebug2Graph gs errs).location.map (fun l => l.id) =
      List.range' 1 (goroutineDebug2Graph gs errs).location.length ∧
    ((goroutineDebug2Graph gs errs).function.map (fun fn => fn.id)).Nodup ∧
    ((goroutineDebug2Graph gs errs).location.map (fun l => l.id)).Nodup ∧
    (goroutineDebug2Graph [gTwin1, gTwin2] []).function.length = 4 ∧
    ((goroutineDebug2Graph [gTwin1, gTwin2] []).function).Nodup ∧
    (goroutineDebug2Graph [gTwin1, gTwin2] []).location.length = 4 ∧
    ((goroutineDebug2Graph [gTwin1, gTwin2] []).location).Nodup := by
  refine ⟨?_, ?_, ?_, ?_, by decide, by decide, by decide, by decide⟩
  · rw [graph_function_eq, specFunctions_map_id, specFunctions_length]
  · rw [graph_location_eq, specLocations_map_id, specLocations_length]
  · rw [graph_function_eq, specFunctions_map_id]
    exact List.nodup_range' 1 (allFrames gs).length
  · rw [graph_location_eq, specLocations_map_id]
    exact List.nodup_range' 1 (allFrames gs).length

/-- A TaskRecord whose uint64 id is 2^63, the smallest id on which Go's
`int64(g.ID)` conversion wraps to a negative value. -/
def gBig : Goroutine :=
  { id := 9223372036854775808, state := "s", wait := 0, stack := [],
    framesElided := false }

/-- C3 (as stated, refuted): for the TaskRecord `gBig` with id 2^63, the
produced sample's numeric goid label holds -9223372036854775808 — the id
reinterpreted as a signed int64 per profile.go line 278 — which is not
the record's id 2^63. -/
theorem c3_goid_counterexample :
    (goroutineDebug2Graph [gBig] []).sample.map (fun s => s.numLabel) =
      [[("goid", [(-9223372036854775808 : Int)])]] ∧
    (-9223372036854775808 : Int) ≠ Int.ofNat gBig.id := by
  exact ⟨by decide, by decide⟩

/-- C3 (amended): each sample carries exactly one numeric value (the
record's wait duration in nanoseconds; the spec's 5-minute example yields
300000000000), the label state mapped to the one-element list holding the
record's state, and the numeric label goid mapped to the one-element list
holding `int64(TaskRecord.id)` — the uint64 id reinterpreted as a signed
64-bit integer, equal to the id whenever it is below 2^63 (as at the
spec's id 7) and wrapping to a negative value otherwise. -/
theorem c3_sample_payload_wrapped (gs : List Goroutine) (errs : List String) :
    (goroutineDebug2Graph gs errs).sample.map (fun s => s.value) =
      gs.map (fun g => [durationNanoseconds g.wait]) ∧
    (goroutineDebug2Graph gs errs).sample.map (fun s => s.label) =
      gs.map (fun g => [("state", [g.state])]) ∧
    (goroutineDebug2Graph gs errs).sample.map (fun s => s.numLabel) =
      gs.map (fun g => [("goid", [int64OfUint64 g.id])]) ∧
    (goroutineDebug2Graph [gWorker] []).sample.map (fun s => s.value) =
      [[(300000000000 : Int)]] ∧
    (goroutineDebug2Graph [gWorker] []).sample.map (fun s => s.label) =
      [[("state", ["chan receive"])]] ∧
    (goroutineDebug2Graph [gWorker] []).sample.map (fun s => s.numLabel) =
      [[("goid", [(7 : Int)])]] := by
  refine ⟨?_, ?_, ?_, by decide, by decide, by decide⟩
  · rw [graph_sample_eq]; exact specSamples_map_value gs 1 1
  · rw [graph_sample_eq]; exact specSamples_map_label gs 1 1
  · rw [graph_sample_eq]; exact specSamples_map_numLabel gs 1 1

/-- C9: the builder produces exactly one Sample per TaskRecord, in input
order, with no filtering: a zero-wait record yields a sample with value 0
and an empty-stack record with framesElided = false yields a sample with
an empty location sequence. -/
theorem c9_sample_per_record (gs : List Goroutine) (errs : List String) :
    (goroutineDebug2Graph gs errs).sample.length = gs.length ∧
    (goroutineDebug2Graph gs errs).sample.map (fun s => s.numLabel) =
      gs.map (fun g => [("goid", [int64OfUint64 g.id])]) ∧
    (goroutineDebug2Graph gs errs).sample.map (fun s => s.label) =
      gs.map (fun g => [("state", [g.state])]) ∧
    (goroutineDebug2Graph [gZeroWait] []).sample.map (fun s => s.value) = [[(0 : Int)]] ∧
    (goroutineDebug2Graph [gEmptyStack] []).sample.map (fun s => s.location) = [[]] := by
  refine ⟨?_, ?_, ?_, by decide, by decide⟩
  · rw [graph_sample_eq, specSamples_length]
  · rw [graph_sample_eq]; exact specSamples_map_numLabel gs 1 1
  · rw [graph_sample_eq]; exact specSamples_map_label gs 1 1

/-- C10: the Function and Location tables have equal length, and the i-th
Location has ID i+1, references the single Mapping with ID 1, and holds
exactly one Line whose Function is the i-th Function entry, itself with
ID i+1. -/
theorem c10_location_function_alignment (gs : List Goroutine) (errs : List String)
    (i : Nat) (h : i < (goroutineDebug2Graph gs errs).location.length) :
    (goroutineDebug2Graph gs errs).function.length =
      (goroutineDebug2Graph gs errs).location.length ∧
    ∃ loc fn,
      (goroutineDebug2Graph gs errs).location[i]? = some loc ∧
      (goroutineDebug2Graph gs errs).function[i]? = some fn ∧
      loc.id = i + 1 ∧ fn.id = i + 1 ∧
      loc.mapping = theMapping ∧ theMapping.id = 1 ∧
      ∃ ln, loc.line = [ln] ∧ ln.function = fn := by
  have hlen : (goroutineDebug2Graph gs errs).location.length = (allFrames gs).length := by
    rw [graph_location_eq, specLocations_length]
  have hflen : (goroutineDebug2Graph gs errs).function.length = (allFrames gs).length := by
    rw [graph_function_eq, specFunctions_length]
  have hi : i < (allFrames gs).length := by omega
  obtain ⟨f, hf⟩ : ∃ f, (allFrames gs)[i]? = some f :=
    ⟨(allFrames gs)[i], List.getElem?_eq_getElem hi⟩
  refine ⟨by omega, frameLocation (1 + i) (frameFunction (1 + i) f) f,
    frameFunction (1 + i) f, ?_, ?_, by simp [frameLocation]; omega,
    by simp [frameFunction]; omega, rfl, rfl,
    ⟨{ function := frameFunction (1 + i) f, line := f.line }, rfl, rfl⟩⟩
  · rw [graph_location_eq, specLocations_getElem, hf]; rfl
  · rw [graph_function_eq, specFunctions_getElem, hf]; rfl

/-- Witness for C10 on a concrete one-frame record at index 0. -/
theorem c10_location_function_alignment_witness :
    (goroutineDebug2Graph [gZeroWait] []).function.length =
      (goroutineDebug2Graph [gZeroWait] []).location.length ∧
    ∃ loc fn,
      (goroutineDebug2Graph [gZeroWait] []).location[0]? = some loc ∧
      (goroutineDebug2Graph [gZeroWait] []).function[0]? = some fn ∧
      loc.id = 0 + 1 ∧ fn.id = 0 + 1 ∧
      loc.mapping = theMapping ∧ theMapping.id = 1 ∧
      ∃ ln, loc.line = [ln] ∧ ln.function = fn :=
  c10_location_function_alignment [gZeroWait] [] 0 (by decide)

/-- C4: with a non-empty parse error list, every error appears as an
"error: "-prefixed comment on the graph, and when the external
validation and serialization succeed the builder succeeds: the parse
errors never by themselves cause an error. -/
theorem c4_parse_errors_as_comments (gs : List Goroutine) (errs : List String)
    (cv : pprofile.Profile → Option String)
    (write : pprofile.Profile → Except String Bytes) (bs : Bytes)
    (hne : errs ≠ [])
    (hcv : cv (goroutineDebug2Graph gs errs) = none)
    (hw : write (goroutineDebug2Graph gs errs) = Except.ok bs) :
    (goroutineDebug2Graph gs errs).comments = errs.map (fun e => "error: " ++ e) ∧
    goroutineDebug2ToPprof cv write gs errs = Except.ok bs := by
  refine ⟨graph_comments_eq gs errs, ?_⟩
  simp [goroutineDebug2ToPprof, hcv, hw]

/-- Witness for C4 with one concrete parse error and succeeding external
validation and serialization. -/
theorem c4_parse_errors_as_comments_witness :
    (goroutineDebug2Graph [] ["bad goroutine"]).comments = ["error: bad goroutine"] ∧
    goroutineDebug2ToPprof (fun _ => none) (fun _ => Except.ok []) [] ["bad goroutine"] =
      Except.ok [] := by
  have h := c4_parse_errors_as_comments [] ["bad goroutine"] (fun _ => none)
    (fun _ => Except.ok []) [] (by simp) rfl rfl
  exact ⟨h.1, h.2⟩

/-- C1 (as stated, refuted): for the TaskRecord `gElided` with
`framesElided = true` and the 2-frame stack [f1, f2], the produced
sample's location sequence has its LAST location referencing function
"f1" (the innermost frame), not "...additional frames elided...": the
code prepends each location, so the sequence comes out outermost-first
with the sentinel at index 0. -/
theorem c1_elided_last_counterexample :
    ((goroutineDebug2Graph [gElided] []).sample.map
        (fun s => (s.location.map locView).getLast?)) =
      [some [("f1", "a.go", (1 : Int))]] ∧
    some [("f1", "a.go", (1 : Int))] ≠
      some [("...additional frames elided...", "", (0 : Int))] := by
  exact ⟨by decide, by decide⟩

/-- C1 (amended): for every TaskRecord with framesElided = true and a
stack of n frames, the produced sample's location sequence has length
n+1 and is ordered outermost-frame-first: index 0 is the synthetic
location with function name "...additional frames elided...", file ""
and line 0, followed by the stack frames reversed (the currently
executing frame last). -/
theorem c1_elided_sentinel_first (gs1 : List Goroutine) (g : Goroutine)
    (gs2 : List Goroutine) (errs : List String) (h : g.framesElided = true) :
    ∃ s : pprofile.Sample,
      (goroutineDebug2Graph (gs1 ++ g :: gs2) errs).sample[gs1.length]? = some s ∧
      s.location.length = g.stack.length + 1 ∧
      s.location.map locView =
        [("...additional frames elided...", "", (0 : Int))] ::
          (g.stack.map frameView).reverse := by
  have h1 : ((goroutineDebug2Graph (gs1 ++ g :: gs2) errs).sample.map
      (fun s => s.location.map locView))[gs1.length]? =
        some (((effStack g).map frameView).reverse) := by
    rw [graph_sample_eq, specSamples_map_locView, List.getElem?_map,
      getElem_append_cons_length]
    rfl
  rw [List.getElem?_map] at h1
  rcases ho : (goroutineDebug2Graph (gs1 ++ g :: gs2) errs).sample[gs1.length]? with _ | s
  · rw [ho] at h1; simp at h1
  · rw [ho] at h1
    simp only [Option.map_some', Option.some.injEq] at h1
    have he : effStack g = g.stack ++ [elidedFrame] := by simp [effStack, h]
    rw [he] at h1
    have hview : s.location.map locView =
        [("...additional frames elided...", "", (0 : Int))] ::
          (g.stack.map frameView).reverse := by
      rw [h1]
      simp [List.map_append, List.reverse_append, frameView, elidedFrame]
    refine ⟨s, rfl, ?_, hview⟩
    have hlen := congrArg List.length hview
    simpa using hlen

/-- Witness for the amended C1 on the concrete record `gElided`. -/
theorem c1_elided_sentinel_first_witness :
    ∃ s : pprofile.Sample,
      (goroutineDebug2Graph ([] ++ gElided :: []) []).sample[(0 : Nat)]? = some s ∧
      s.location.length = gElided.stack.length + 1 ∧
      s.location.map locView =
        [("...additional frames elided...", "", (0 : Int))] ::
          (gElided.stack.map frameView).reverse :=
  c1_elided_sentinel_first [] gElided [] [] rfl
